import Mathlib

/-!
# sock-fchown.c: fchown() versus chown() on a UNIX domain socket file

A shallow embedding of `src/sock-fchown.c`.  The program is a straight line of
library calls; the operating system is an explicit record of answers (`Env`)
and a run is the list of library calls and output lines it performs, in
order, together with the value `main` returns.

Modelling conventions.
* C `int` results are `Int`; `uid_t` and `gid_t` values are `Nat` (no
  arithmetic is done on them, they are only compared and printed).
* `asprintf` is the string it formats; `perror` is an event carrying its
  argument (the text of `errno` belongs to the system).
* `strcpy(address.sun_path, path)` is the path itself: the model covers the
  runs in which the path fits in `sun_path`.
* `goto cleanup` is a call of the function `cleanup`.
-/

namespace SockFchown

/-- Entry of the user database: the field of `struct passwd` the program reads. -/
structure Passwd where
  pw_uid : Nat
  deriving DecidableEq, Repr

/-- Entry of the group database: the field of `struct group` the program reads. -/
structure Group where
  gr_gid : Nat
  deriving DecidableEq, Repr

/-- Answer of `stat(path, &buf)`: the returned `int` and the two fields of
`buf` the program reads. -/
structure StatResult where
  ret : Int
  st_uid : Nat
  st_gid : Nat
  deriving DecidableEq, Repr

/-- Answers of the operating system, one field per call site of the program.
`stat1` answers the `stat` after `fchown`, `stat2` the one after `chown`; a
lookup that returns `NULL` is `none`. -/
structure Env where
  socket : Int
  bind : Int → String → Int
  getpwnam : String → Option Passwd
  getgrnam : String → Option Group
  fchown : Int → Nat → Nat → Int
  stat1 : String → StatResult
  chown : String → Nat → Nat → Int
  stat2 : String → StatResult
  remove : String → Int

/-- One library call of a run, with its arguments and its answer, or one
piece of output. -/
inductive Event where
  | socket (ret : Int)
  | bind (fd : Int) (path : String) (ret : Int)
  | getpwnam (name : String) (found : Option Passwd)
  | getgrnam (name : String) (found : Option Group)
  | fchown (fd : Int) (uid gid : Nat) (ret : Int)
  | stat (path : String) (res : StatResult)
  | chown (path : String) (uid gid : Nat) (ret : Int)
  | remove (path : String) (ret : Int)
  | printf (text : String)
  | perror (msg : String)
  deriving DecidableEq, Repr

/-- A finished run: what was called and printed, in order, and the value
returned. -/
structure Run where
  trace : List Event
  ret : Int
  deriving DecidableEq, Repr

/-- Text of `%d` for an `int`. -/
def fmt_d (n : Int) : String := toString n

/-- Text of `%d` for a `uid_t` or `gid_t`: the 32-bit value read as a signed
`int`. -/
def fmt_id (n : Nat) : String :=
  if n % 2 ^ 32 < 2 ^ 31 then toString (n % 2 ^ 32)
  else toString ((n % 2 ^ 32 : Nat) - (2 ^ 32 : Int))

/-- Function `usage` (lines 30-34): one `printf`. -/
def usage (program : String) : List Event :=
  [Event.printf (program ++ " /some/socketfile uid gid\n")]

/-- Result of `parse_uid_gid_strings`: the returned `int`, the contents of
`*uid` and `*gid` afterwards, and the lookups performed. -/
structure Parsed where
  ret : Int
  uid : Nat
  gid : Nat
  trace : List Event
  deriving DecidableEq, Repr

/-- Function `parse_uid_gid_strings` (lines 36-54).  `uid0` and `gid0` are the
contents of `*uid` and `*gid` before the call; they are left alone when a
lookup fails. -/
def parse_uid_gid_strings (w : Env) (uid_str gid_str : String) (uid0 gid0 : Nat) :
    Parsed :=
  match w.getpwnam uid_str with
  | none => ⟨-1, uid0, gid0, [Event.getpwnam uid_str none]⟩
  | some pwd =>
    match w.getgrnam gid_str with
    | none =>
      ⟨-1, uid0, gid0, [Event.getpwnam uid_str (some pwd), Event.getgrnam gid_str none]⟩
    | some grp =>
      ⟨0, pwd.pw_uid, grp.gr_gid,
        [Event.getpwnam uid_str (some pwd), Event.getgrnam gid_str (some grp)]⟩

/-- The line printed when a read-back differs from the requested ids. -/
def errorLine : String := "ERROR: Failed to properly set uid or gid.\n"

/-- Label `cleanup:` of `main` (lines 136-147).  `acc` is what the run did so
far and `r` the status variable of `main`. -/
def cleanup (w : Env) (path : String) (r : Int) (acc : List Event) : Run :=
  let s := w.remove path
  let acc := acc ++ [Event.printf ("Removing " ++ path ++ ".\n"), Event.remove path s]
  if s < 0 then
    ⟨acc ++ [Event.perror ("Failed to remove " ++ path)], s⟩
  else
    ⟨acc ++ [Event.printf "All done\n"], r⟩

/-- Function `main` (lines 56-148).  `argc` is the length of `argv`; an
`argv[i]` past the end reads as the empty string (it is not used then) and a
missing `argv[0]` prints as `(null)`.  The uninitialised `uid` and `gid` are
`0` until `parse_uid_gid_strings` writes them (they are not read before). -/
def main (argv : List String) (w : Env) : Run :=
  let path := argv.getD 1 ""
  let uid_str := argv.getD 2 ""
  let gid_str := argv.getD 3 ""
  if argv.length < 4 then
    ⟨usage (argv.getD 0 "(null)"), 1⟩
  else
    let fd := w.socket
    let b := w.bind fd path
    let t := [Event.socket fd, Event.bind fd path b]
    if fd < 0 then
      ⟨t ++ [Event.perror ("Failed to create socket " ++ path)], fd⟩
    else
      let p := parse_uid_gid_strings w uid_str gid_str 0 0
      let r := p.ret
      let uid := p.uid
      let gid := p.gid
      let t := t ++ p.trace
      if r < 0 then
        cleanup w path r
          (t ++ [Event.printf ("Failed to obtain uid:gid of " ++ uid_str ++ ":" ++ gid_str ++ "\n")])
      else
        let t := t ++ [Event.printf ("Calling fchown(" ++ fmt_d fd ++ ", " ++ fmt_id uid ++
          ", " ++ fmt_id gid ++ ")\n")]
        let r := w.fchown fd uid gid
        let t := t ++ [Event.fchown fd uid gid r]
        if r < 0 then
          cleanup w path r (t ++ [Event.perror ("Failed to fchown " ++ path)])
        else
          let t := t ++ [Event.printf "fchown() SUCCESS\n"]
          let buf := w.stat1 path
          let r := buf.ret
          let t := t ++ [Event.stat path buf]
          if r < 0 then
            cleanup w path r (t ++ [Event.perror ("Failed to stat " ++ path)])
          else
            let t := t ++ [Event.printf ("New uid:gid (" ++ fmt_id buf.st_uid ++ ":" ++
              fmt_id buf.st_gid ++ ")\n")]
            let t := if uid ≠ buf.st_uid ∨ gid ≠ buf.st_gid then
              t ++ [Event.printf errorLine] else t
            let t := t ++ [Event.printf ("Calling chown(" ++ fmt_d fd ++ ", " ++ fmt_id uid ++
              ", " ++ fmt_id gid ++ ")\n")]
            let r := w.chown path uid gid
            let t := t ++ [Event.chown path uid gid r]
            if r < 0 then
              cleanup w path r (t ++ [Event.perror ("Failed to chown " ++ path)])
            else
              let t := t ++ [Event.printf "chown() SUCCESS\n"]
              let buf := w.stat2 path
              let r := buf.ret
              let t := t ++ [Event.stat path buf]
              if r < 0 then
                cleanup w path r (t ++ [Event.perror ("Failed to stat " ++ path)])
              else
                let t := t ++ [Event.printf ("New uid:gid (" ++ fmt_id buf.st_uid ++ ":" ++
                  fmt_id buf.st_gid ++ ")\n")]
                let t := if uid ≠ buf.st_uid ∨ gid ≠ buf.st_gid then
                  t ++ [Event.printf errorLine] else t
                cleanup w path r t

/-- Whether an event is a library call of the run (as opposed to output). -/
def Event.isCall : Event → Bool
  | .printf _ => false
  | .perror _ => false
  | _ => true

/-- The library calls of a trace, in order. -/
def calls (t : List Event) : List Event := t.filter Event.isCall

/-- Whether an event is a call of `remove`. -/
def Event.isRemove : Event → Bool
  | .remove _ _ => true
  | _ => false

/-- Whether an event is a socket operation (`socket` or `bind`). -/
def Event.isSocketOp : Event → Bool
  | .socket _ => true
  | .bind _ _ _ => true
  | _ => false

/-- Whether an event is an ownership operation (`fchown` or `chown`). -/
def Event.isOwnershipOp : Event → Bool
  | .fchown _ _ _ _ => true
  | .chown _ _ _ _ => true
  | _ => false

/-- Whether an event is one of the steps `fchown`, `stat`, `chown` with a
negative result. -/
def Event.failedProbe : Event → Bool
  | .fchown _ _ _ r => decide (r < 0)
  | .stat _ buf => decide (buf.ret < 0)
  | .chown _ _ _ r => decide (r < 0)
  | _ => false

/-- A library call without its answer: the function and its arguments. -/
inductive Call where
  | socket
  | bind (fd : Int) (path : String)
  | getpwnam (name : String)
  | getgrnam (name : String)
  | fchown (fd : Int) (uid gid : Nat)
  | stat (path : String)
  | chown (path : String) (uid gid : Nat)
  | remove (path : String)
  deriving DecidableEq, Repr

/-- The call an event is, if it is one. -/
def Event.toCall : Event → Option Call
  | .socket _ => some Call.socket
  | .bind fd path _ => some (Call.bind fd path)
  | .getpwnam name _ => some (Call.getpwnam name)
  | .getgrnam name _ => some (Call.getgrnam name)
  | .fchown fd uid gid _ => some (Call.fchown fd uid gid)
  | .stat path _ => some (Call.stat path)
  | .chown path uid gid _ => some (Call.chown path uid gid)
  | .remove path _ => some (Call.remove path)
  | .printf _ => none
  | .perror _ => none

/-- The sequence of calls of a trace, answers left out. -/
def callSeq (t : List Event) : List Call := t.filterMap Event.toCall

/-- The text written to standard output by a trace. -/
def stdout : List Event → String
  | [] => ""
  | .printf s :: t => s ++ stdout t
  | _ :: t => stdout t

/-- Number of lines of a text: its newline characters. -/
def lineCount (s : String) : Nat := s.toList.count '\n'

/-- The environment `w` with other ownership values in the answers of the two
`stat` calls; their returned `int` is kept. -/
def Env.withOwners (w : Env) (uid1 gid1 uid2 gid2 : Nat) : Env :=
  { w with
    stat1 := fun p => ⟨(w.stat1 p).ret, uid1, gid1⟩
    stat2 := fun p => ⟨(w.stat2 p).ret, uid2, gid2⟩ }

/-- The report of a read-back (lines 108-111 and 131-134): the ids observed,
then the error line when they differ from the ids requested. -/
def readback (uid gid : Nat) (buf : StatResult) : List Event :=
  Event.printf ("New uid:gid (" ++ fmt_id buf.st_uid ++ ":" ++ fmt_id buf.st_gid ++ ")\n") ::
    (if uid ≠ buf.st_uid ∨ gid ≠ buf.st_gid then [Event.printf errorLine] else [])

/-- The part of a run from `socket` to the `fchown` call, once the descriptor
is valid and both lookups succeeded. -/
def prefixOk (w : Env) (path uid_str gid_str : String) : List Event :=
  let p := parse_uid_gid_strings w uid_str gid_str 0 0
  [Event.socket w.socket, Event.bind w.socket path (w.bind w.socket path)] ++ p.trace ++
    [Event.printf ("Calling fchown(" ++ fmt_d w.socket ++ ", " ++ fmt_id p.uid ++ ", " ++
      fmt_id p.gid ++ ")\n"),
     Event.fchown w.socket p.uid p.gid (w.fchown w.socket p.uid p.gid)]

/-- The part of a run from `socket` to the `chown` call, once the first
read-back succeeded. -/
def prefixChown (w : Env) (path uid_str gid_str : String) : List Event :=
  let p := parse_uid_gid_strings w uid_str gid_str 0 0
  prefixOk w path uid_str gid_str ++
    [Event.printf "fchown() SUCCESS\n", Event.stat path (w.stat1 path)] ++
    readback p.uid p.gid (w.stat1 path) ++
    [Event.printf ("Calling chown(" ++ fmt_d w.socket ++ ", " ++ fmt_id p.uid ++ ", " ++
      fmt_id p.gid ++ ")\n"),
     Event.chown path p.uid p.gid (w.chown path p.uid p.gid)]

/-- The ways the probe sequence of `main` reaches the label `cleanup`: the
value of the status variable `r` there and what the run did before. -/
inductive Reaches (w : Env) (path uid_str gid_str : String) : Int → List Event → Prop
  | resolve (h : (parse_uid_gid_strings w uid_str gid_str 0 0).ret < 0) :
      Reaches w path uid_str gid_str (parse_uid_gid_strings w uid_str gid_str 0 0).ret
        ([Event.socket w.socket, Event.bind w.socket path (w.bind w.socket path)] ++
          (parse_uid_gid_strings w uid_str gid_str 0 0).trace ++
          [Event.printf ("Failed to obtain uid:gid of " ++ uid_str ++ ":" ++ gid_str ++ "\n")])
  | fchown (hp : ¬ (parse_uid_gid_strings w uid_str gid_str 0 0).ret < 0)
      (h : w.fchown w.socket (parse_uid_gid_strings w uid_str gid_str 0 0).uid
        (parse_uid_gid_strings w uid_str gid_str 0 0).gid < 0) :
      Reaches w path uid_str gid_str
        (w.fchown w.socket (parse_uid_gid_strings w uid_str gid_str 0 0).uid
          (parse_uid_gid_strings w uid_str gid_str 0 0).gid)
        (prefixOk w path uid_str gid_str ++ [Event.perror ("Failed to fchown " ++ path)])
  | stat1 (hp : ¬ (parse_uid_gid_strings w uid_str gid_str 0 0).ret < 0)
      (hf : ¬ w.fchown w.socket (parse_uid_gid_strings w uid_str gid_str 0 0).uid
        (parse_uid_gid_strings w uid_str gid_str 0 0).gid < 0)
      (h : (w.stat1 path).ret < 0) :
      Reaches w path uid_str gid_str (w.stat1 path).ret
        (prefixOk w path uid_str gid_str ++
          [Event.printf "fchown() SUCCESS\n", Event.stat path (w.stat1 path),
           Event.perror ("Failed to stat " ++ path)])
  | chown (hp : ¬ (parse_uid_gid_strings w uid_str gid_str 0 0).ret < 0)
      (hf : ¬ w.fchown w.socket (parse_uid_gid_strings w uid_str gid_str 0 0).uid
        (parse_uid_gid_strings w uid_str gid_str 0 0).gid < 0)
      (hs : ¬ (w.stat1 path).ret < 0)
      (h : w.chown path (parse_uid_gid_strings w uid_str gid_str 0 0).uid
        (parse_uid_gid_strings w uid_str gid_str 0 0).gid < 0) :
      Reaches w path uid_str gid_str
        (w.chown path (parse_uid_gid_strings w uid_str gid_str 0 0).uid
          (parse_uid_gid_strings w uid_str gid_str 0 0).gid)
        (prefixChown w path uid_str gid_str ++ [Event.perror ("Failed to chown " ++ path)])
  | stat2 (hp : ¬ (parse_uid_gid_strings w uid_str gid_str 0 0).ret < 0)
      (hf : ¬ w.fchown w.socket (parse_uid_gid_strings w uid_str gid_str 0 0).uid
        (parse_uid_gid_strings w uid_str gid_str 0 0).gid < 0)
      (hs : ¬ (w.stat1 path).ret < 0)
      (hc : ¬ w.chown path (parse_uid_gid_strings w uid_str gid_str 0 0).uid
        (parse_uid_gid_strings w uid_str gid_str 0 0).gid < 0)
      (h : (w.stat2 path).ret < 0) :
      Reaches w path uid_str gid_str (w.stat2 path).ret
        (prefixChown w path uid_str gid_str ++
          [Event.printf "chown() SUCCESS\n", Event.stat path (w.stat2 path),
           Event.perror ("Failed to stat " ++ path)])
  | done (hp : ¬ (parse_uid_gid_strings w uid_str gid_str 0 0).ret < 0)
      (hf : ¬ w.fchown w.socket (parse_uid_gid_strings w uid_str gid_str 0 0).uid
        (parse_uid_gid_strings w uid_str gid_str 0 0).gid < 0)
      (hs : ¬ (w.stat1 path).ret < 0)
      (hc : ¬ w.chown path (parse_uid_gid_strings w uid_str gid_str 0 0).uid
        (parse_uid_gid_strings w uid_str gid_str 0 0).gid < 0)
      (h : ¬ (w.stat2 path).ret < 0) :
      Reaches w path uid_str gid_str (w.stat2 path).ret
        (prefixChown w path uid_str gid_str ++
          [Event.printf "chown() SUCCESS\n", Event.stat path (w.stat2 path)] ++
          readback (parse_uid_gid_strings w uid_str gid_str 0 0).uid
            (parse_uid_gid_strings w uid_str gid_str 0 0).gid (w.stat2 path))

/-- In a list of calls, every failed step among `fchown`, `stat`, `chown` is
followed by `last` and nothing else. -/
def StopsAt (last : Event) : List Event → Prop
  | [] => True
  | e :: rest => (e.failedProbe = true → rest = [last]) ∧ StopsAt last rest

/-- The line that reports the ids observed by a read-back. -/
def newIdsLine (buf : StatResult) : String :=
  "New uid:gid (" ++ fmt_id buf.st_uid ++ ":" ++ fmt_id buf.st_gid ++ ")\n"

/-- In a trace, every successful `stat` is followed by the report of the ids
it observed, and then by the error line exactly when they differ from
`uid:gid`. -/
def ReadbacksOk (uid gid : Nat) : List Event → Prop
  | [] => True
  | Event.stat _ buf :: rest =>
    (0 ≤ buf.ret → rest[0]? = some (Event.printf (newIdsLine buf)) ∧
      (rest[1]? = some (Event.printf errorLine) ↔ (uid ≠ buf.st_uid ∨ gid ≠ buf.st_gid))) ∧
    ReadbacksOk uid gid rest
  | _ :: rest => ReadbacksOk uid gid rest

/-- Whether an event is a successful `stat` whose ids differ from `uid:gid`. -/
def Event.isMismatch (uid gid : Nat) : Event → Bool
  | .stat _ buf => decide (0 ≤ buf.ret ∧ (uid ≠ buf.st_uid ∨ gid ≠ buf.st_gid))
  | _ => false

/-- Whether an event prints the error line. -/
def Event.isErrorLine : Event → Bool
  | .printf s => decide (s = errorLine)
  | _ => false

/-- The environments `w` and `v` answer alike, except for the ownership
values reported by the two `stat` calls. -/
def Env.sameButOwners (w v : Env) : Prop :=
  v.socket = w.socket ∧ v.bind = w.bind ∧ v.getpwnam = w.getpwnam ∧ v.getgrnam = w.getgrnam ∧
    v.fchown = w.fchown ∧ (∀ p, (v.stat1 p).ret = (w.stat1 p).ret) ∧ v.chown = w.chown ∧
    (∀ p, (v.stat2 p).ret = (w.stat2 p).ret) ∧ v.remove = w.remove

/-- A system in which every call succeeds: descriptor 3, `nobody:nogroup` is
65534:65534, `fchown` reports success but the file keeps owner 0:0, `chown`
takes effect. -/
def envOk : Env where
  socket := 3
  bind := fun _ _ => 0
  getpwnam := fun n => if n = "nobody" then some ⟨65534⟩ else none
  getgrnam := fun n => if n = "nogroup" then some ⟨65534⟩ else none
  fchown := fun _ _ _ => 0
  stat1 := fun _ => ⟨0, 0, 0⟩
  chown := fun _ _ _ => 0
  stat2 := fun _ => ⟨0, 65534, 65534⟩
  remove := fun _ => 0

/-- The command line `sock-fchown /tmp/test.sock nobody nogroup`. -/
def argvOk : List String := ["sock-fchown", "/tmp/test.sock", "nobody", "nogroup"]

/-- A system in which `socket()` fails (and so does `bind` on the invalid
descriptor); nothing exists at the path. -/
def envNoSocket : Env :=
  { envOk with
    socket := -1
    bind := fun _ _ => -1
    stat1 := fun _ => ⟨-1, 0, 0⟩
    stat2 := fun _ => ⟨-1, 0, 0⟩
    remove := fun _ => -1 }

/-- A system in which something already exists at the path, owned by 0:0:
`bind` fails, every other call succeeds. -/
def envBindFails : Env :=
  { envOk with bind := fun _ _ => -1 }

/-- The command line `sock-fchown /tmp/test.sock doesnotexist123 nogroup`. -/
def argvNoUser : List String :=
  ["sock-fchown", "/tmp/test.sock", "doesnotexist123", "nogroup"]

/-- A system in which the second `stat` fails and `remove` fails as well. -/
def envStatRemoveFail : Env :=
  { envOk with
    stat2 := fun _ => ⟨-1, 0, 0⟩
    remove := fun _ => -2 }

/-! ## Shape of the runs -/

theorem ite_append_singleton {α : Type} (c : Prop) [Decidable c] (t : List α) (e : α) :
    (if c then t ++ [e] else t) = t ++ (if c then [e] else []) := by
  split <;> simp

/-- The three outcomes of `parse_uid_gid_strings`. -/
theorem parse_cases (w : Env) (u g : String) (a b : Nat) :
    (w.getpwnam u = none ∧
      parse_uid_gid_strings w u g a b = ⟨-1, a, b, [Event.getpwnam u none]⟩) ∨
    (∃ pwd, w.getpwnam u = some pwd ∧ w.getgrnam g = none ∧
      parse_uid_gid_strings w u g a b =
        ⟨-1, a, b, [Event.getpwnam u (some pwd), Event.getgrnam g none]⟩) ∨
    (∃ pwd grp, w.getpwnam u = some pwd ∧ w.getgrnam g = some grp ∧
      parse_uid_gid_strings w u g a b =
        ⟨0, pwd.pw_uid, grp.gr_gid,
          [Event.getpwnam u (some pwd), Event.getgrnam g (some grp)]⟩) := by
  unfold parse_uid_gid_strings
  cases hu : w.getpwnam u with
  | none => exact Or.inl ⟨rfl, rfl⟩
  | some pwd =>
    cases hg : w.getgrnam g with
    | none => exact Or.inr (Or.inl ⟨pwd, rfl, rfl, rfl⟩)
    | some grp => exact Or.inr (Or.inr ⟨pwd, grp, rfl, rfl, rfl⟩)

/-- With fewer than four arguments `main` only prints the usage line. -/
theorem main_of_few_args (argv : List String) (w : Env) (hargc : argv.length < 4) :
    main argv w = ⟨usage (argv.getD 0 "(null)"), 1⟩ := by
  simp only [main, hargc, if_true]

/-- With a negative descriptor `main` stops after `bind`. -/
theorem main_of_socket_neg (argv : List String) (w : Env) (hargc : 4 ≤ argv.length)
    (hfd : w.socket < 0) :
    main argv w =
      ⟨[Event.socket w.socket,
        Event.bind w.socket (argv.getD 1 "") (w.bind w.socket (argv.getD 1 "")),
        Event.perror ("Failed to create socket " ++ argv.getD 1 "")], w.socket⟩ := by
  have h : ¬ argv.length < 4 := by omega
  simp only [main, h, hfd, if_true, if_false, List.cons_append, List.nil_append]

/-- Every run of `main` with a valid descriptor ends in `cleanup`, reached in
one of the six ways of `Reaches`. -/
theorem main_reaches (argv : List String) (w : Env) (hargc : 4 ≤ argv.length)
    (hfd : 0 ≤ w.socket) :
    ∃ r acc, main argv w = cleanup w (argv.getD 1 "") r acc ∧
      Reaches w (argv.getD 1 "") (argv.getD 2 "") (argv.getD 3 "") r acc := by
  have h : ¬ argv.length < 4 := by omega
  have hfd' : ¬ w.socket < 0 := by omega
  unfold main
  simp only [h, hfd', if_false, ite_append_singleton]
  by_cases hp : (parse_uid_gid_strings w (argv.getD 2 "") (argv.getD 3 "") 0 0).ret < 0
  · simp only [hp, if_true]
    exact ⟨_, _, rfl, Reaches.resolve hp⟩
  simp only [hp, if_false]
  by_cases hf : w.fchown w.socket
      (parse_uid_gid_strings w (argv.getD 2 "") (argv.getD 3 "") 0 0).uid
      (parse_uid_gid_strings w (argv.getD 2 "") (argv.getD 3 "") 0 0).gid < 0
  · simp only [hf, if_true]
    refine ⟨_, _, ?_, Reaches.fchown hp hf⟩
    simp only [prefixOk, List.append_assoc, List.cons_append, List.nil_append]
  simp only [hf, if_false]
  by_cases hs : (w.stat1 (argv.getD 1 "")).ret < 0
  · simp only [hs, if_true]
    refine ⟨_, _, ?_, Reaches.stat1 hp hf hs⟩
    simp only [prefixOk, List.append_assoc, List.cons_append, List.nil_append]
  simp only [hs, if_false]
  by_cases hc : w.chown (argv.getD 1 "")
      (parse_uid_gid_strings w (argv.getD 2 "") (argv.getD 3 "") 0 0).uid
      (parse_uid_gid_strings w (argv.getD 2 "") (argv.getD 3 "") 0 0).gid < 0
  · simp only [hc, if_true]
    refine ⟨_, _, ?_, Reaches.chown hp hf hs hc⟩
    simp only [prefixChown, prefixOk, readback, List.append_assoc, List.cons_append,
      List.nil_append]
  simp only [hc, if_false]
  by_cases hs2 : (w.stat2 (argv.getD 1 "")).ret < 0
  · simp only [hs2, if_true]
    refine ⟨_, _, ?_, Reaches.stat2 hp hf hs hc hs2⟩
    simp only [prefixChown, prefixOk, readback, List.append_assoc, List.cons_append,
      List.nil_append]
  simp only [hs2, if_false]
  refine ⟨_, _, ?_, Reaches.done hp hf hs hc hs2⟩
  simp only [prefixChown, prefixOk, readback, List.append_assoc, List.cons_append,
    List.nil_append]

/-- What `cleanup` does: one `remove`, then the report of its outcome. -/
theorem cleanup_trace (w : Env) (path : String) (r : Int) (acc : List Event) :
    (cleanup w path r acc).trace =
      acc ++ [Event.printf ("Removing " ++ path ++ ".\n"), Event.remove path (w.remove path),
        if w.remove path < 0 then Event.perror ("Failed to remove " ++ path)
        else Event.printf "All done\n"] := by
  unfold cleanup
  by_cases h : w.remove path < 0 <;> simp [h]

/-- What `cleanup` returns: the result of `remove` when negative, otherwise
the status it was given. -/
theorem cleanup_ret (w : Env) (path : String) (r : Int) (acc : List Event) :
    (cleanup w path r acc).ret = if w.remove path < 0 then w.remove path else r := by
  unfold cleanup
  by_cases h : w.remove path < 0 <;> simp [h]

/-- Before `cleanup` is reached, `remove` has not been called. -/
theorem Reaches.no_remove {w : Env} {path u g : String} {r : Int} {acc : List Event}
    (h : Reaches w path u g r acc) : acc.filter Event.isRemove = [] := by
  cases h <;>
    rcases parse_cases w u g 0 0 with ⟨_, hp⟩ | ⟨pwd, _, _, hp⟩ | ⟨pwd, grp, _, _, hp⟩ <;>
    simp only [prefixChown, prefixOk, readback, hp] <;>
    (try split_ifs) <;> rfl

/-- A failed lookup makes `parse_uid_gid_strings` return -1. -/
theorem parse_ret_of_lookup_failure (w : Env) (u g : String) (a b : Nat)
    (h : w.getpwnam u = none ∨ w.getgrnam g = none) :
    (parse_uid_gid_strings w u g a b).ret = -1 := by
  rcases parse_cases w u g a b with ⟨hu, hp⟩ | ⟨pwd, hu, hg, hp⟩ | ⟨pwd, grp, hu, hg, hp⟩
  · rw [hp]
  · rw [hp]
  · rcases h with h | h
    · rw [hu] at h; cases h
    · rw [hg] at h; cases h

/-- When resolution fails, `cleanup` is reached right after the lookups. -/
theorem Reaches.of_resolve_failure {w : Env} {path u g : String} {r : Int} {acc : List Event}
    (h : Reaches w path u g r acc) (hp : (parse_uid_gid_strings w u g 0 0).ret < 0) :
    r = (parse_uid_gid_strings w u g 0 0).ret ∧
      acc = [Event.socket w.socket, Event.bind w.socket path (w.bind w.socket path)] ++
        (parse_uid_gid_strings w u g 0 0).trace ++
        [Event.printf ("Failed to obtain uid:gid of " ++ u ++ ":" ++ g ++ "\n")] := by
  cases h with
  | resolve _ => exact ⟨rfl, rfl⟩
  | fchown hp2 _ => exact absurd hp hp2
  | stat1 hp2 _ _ => exact absurd hp hp2
  | chown hp2 _ _ _ => exact absurd hp hp2
  | stat2 hp2 _ _ _ _ => exact absurd hp hp2
  | done hp2 _ _ _ _ => exact absurd hp hp2

/-- Lines of a concatenation. -/
theorem lineCount_append (a b : String) : lineCount (a ++ b) = lineCount a + lineCount b := by
  simp [lineCount, String.toList, String.data_append, List.count_append]

/-! ## Results of the examined steps -/

theorem StopsAt.split {last : Event} {l : List Event} (h : StopsAt last l)
    (pre : List Event) (e : Event) (post : List Event) (hl : l = pre ++ e :: post)
    (he : e.failedProbe = true) : post = [last] := by
  induction pre generalizing l with
  | nil =>
    subst hl
    exact h.1 he
  | cons a pre ih =>
    subst hl
    exact ih h.2 rfl

theorem calls_append (a b : List Event) : calls (a ++ b) = calls a ++ calls b := by
  simp [calls]

theorem calls_parse (w : Env) (u g : String) (a b : Nat) :
    calls (parse_uid_gid_strings w u g a b).trace = (parse_uid_gid_strings w u g a b).trace := by
  rcases parse_cases w u g a b with ⟨_, hp⟩ | ⟨pwd, _, _, hp⟩ | ⟨pwd, grp, _, _, hp⟩ <;>
    rw [hp] <;> rfl

theorem calls_readback (uid gid : Nat) (buf : StatResult) :
    calls (readback uid gid buf) = [] := by
  unfold readback
  split_ifs <;> rfl

theorem calls_prefixOk (w : Env) (path u g : String) :
    calls (prefixOk w path u g) =
      [Event.socket w.socket, Event.bind w.socket path (w.bind w.socket path)] ++
        (parse_uid_gid_strings w u g 0 0).trace ++
        [Event.fchown w.socket (parse_uid_gid_strings w u g 0 0).uid
          (parse_uid_gid_strings w u g 0 0).gid
          (w.fchown w.socket (parse_uid_gid_strings w u g 0 0).uid
            (parse_uid_gid_strings w u g 0 0).gid)] := by
  simp only [prefixOk, calls_append, calls_parse]
  rfl

theorem calls_prefixChown (w : Env) (path u g : String) :
    calls (prefixChown w path u g) =
      calls (prefixOk w path u g) ++
        [Event.stat path (w.stat1 path),
         Event.chown path (parse_uid_gid_strings w u g 0 0).uid
          (parse_uid_gid_strings w u g 0 0).gid
          (w.chown path (parse_uid_gid_strings w u g 0 0).uid
            (parse_uid_gid_strings w u g 0 0).gid)] := by
  simp only [prefixChown, calls_append, calls_readback]
  simp [calls, Event.isCall]

theorem calls_cleanup (w : Env) (path : String) (r : Int) (acc : List Event) :
    calls (cleanup w path r acc).trace = calls acc ++ [Event.remove path (w.remove path)] := by
  rw [cleanup_trace, calls_append]
  by_cases h : w.remove path < 0 <;> simp [h, calls, Event.isCall]

/-- In every run, a failed `fchown`, `stat` or `chown` is followed, among the
calls, by `remove(path)` alone. -/
theorem main_stopsAt (argv : List String) (w : Env) :
    StopsAt (Event.remove (argv.getD 1 "") (w.remove (argv.getD 1 "")))
      (calls (main argv w).trace) := by
  by_cases hargc : argv.length < 4
  · rw [main_of_few_args argv w hargc]
    exact trivial
  by_cases hfd : w.socket < 0
  · rw [main_of_socket_neg argv w (by omega) hfd]
    simp [calls, Event.isCall, StopsAt, Event.failedProbe]
  obtain ⟨r, acc, hm, hr⟩ := main_reaches argv w (by omega) (by omega)
  rw [hm, calls_cleanup]
  generalize argv.getD 1 "" = path at *
  generalize argv.getD 2 "" = u at *
  generalize argv.getD 3 "" = g at *
  cases hr <;>
    simp only [calls_append, calls_prefixChown, calls_prefixOk, calls_readback, calls_parse] <;>
    rcases parse_cases w u g 0 0 with ⟨_, hp⟩ | ⟨pwd, _, _, hp⟩ | ⟨pwd, grp, _, _, hp⟩ <;>
    simp only [hp] at * <;>
    simp [calls, Event.isCall, StopsAt, Event.failedProbe, *]

/-! ## Read-backs -/

theorem ReadbacksOk.tail {uid gid : Nat} {e : Event} {l : List Event}
    (h : ReadbacksOk uid gid (e :: l)) : ReadbacksOk uid gid l := by
  cases e <;> first | exact h | exact h.2

theorem ReadbacksOk.at_index {uid gid : Nat} {l : List Event} (h : ReadbacksOk uid gid l)
    (i : Nat) (path : String) (buf : StatResult) (hi : l[i]? = some (Event.stat path buf))
    (hok : 0 ≤ buf.ret) :
    l[i + 1]? = some (Event.printf (newIdsLine buf)) ∧
      (l[i + 2]? = some (Event.printf errorLine) ↔ (uid ≠ buf.st_uid ∨ gid ≠ buf.st_gid)) := by
  induction l generalizing i with
  | nil => simp at hi
  | cons a l ih =>
    cases i with
    | zero =>
      simp at hi
      subst hi
      simpa using h.1 hok
    | succ i =>
      simp at hi
      simpa using ih h.tail i hi

theorem calling_chown_ne (a b c : String) :
    "Calling chown(" ++ a ++ ", " ++ b ++ ", " ++ c ++ ")\n" ≠ errorLine := by
  intro h
  have h2 := congrArg String.data h
  simp [errorLine] at h2

theorem removing_ne (x : String) : "Removing " ++ x ++ ".\n" ≠ errorLine := by
  intro h
  have h2 := congrArg String.data h
  simp [errorLine] at h2

/-- In every run whose lookups succeed, each successful `stat` is followed by
the report of the ids and by the error line exactly on a mismatch. -/
theorem main_readbacksOk (argv : List String) (w : Env) (pwd : Passwd) (grp : Group)
    (hu : w.getpwnam (argv.getD 2 "") = some pwd)
    (hg : w.getgrnam (argv.getD 3 "") = some grp) :
    ReadbacksOk pwd.pw_uid grp.gr_gid (main argv w).trace := by
  by_cases hargc : argv.length < 4
  · rw [main_of_few_args argv w hargc]
    exact trivial
  by_cases hfd : w.socket < 0
  · rw [main_of_socket_neg argv w (by omega) hfd]
    exact trivial
  obtain ⟨r, acc, hm, hr⟩ := main_reaches argv w (by omega) (by omega)
  rw [hm, cleanup_trace]
  generalize argv.getD 1 "" = path at *
  generalize argv.getD 2 "" = u at *
  generalize argv.getD 3 "" = g at *
  have hp : parse_uid_gid_strings w u g 0 0 = ⟨0, pwd.pw_uid, grp.gr_gid,
      [Event.getpwnam u (some pwd), Event.getgrnam g (some grp)]⟩ := by
    simp [parse_uid_gid_strings, hu, hg]
  by_cases hrm : w.remove path < 0 <;>
    by_cases h1 : pwd.pw_uid ≠ (w.stat1 path).st_uid ∨ grp.gr_gid ≠ (w.stat1 path).st_gid <;>
    by_cases h2 : pwd.pw_uid ≠ (w.stat2 path).st_uid ∨ grp.gr_gid ≠ (w.stat2 path).st_gid <;>
    cases hr <;>
    simp only [prefixChown, prefixOk, readback, hp, List.cons_append, List.nil_append,
      List.append_assoc, hrm, h1, h2, if_true, if_false, ReadbacksOk] <;>
    first
      | trivial
      | (simp only [hp] at *
         simp [newIdsLine, calling_chown_ne, removing_ne, h1, h2, not_le.mpr, *])

theorem calling_fchown_ne (a b c : String) :
    "Calling fchown(" ++ a ++ ", " ++ b ++ ", " ++ c ++ ")\n" ≠ errorLine := by
  intro h
  have h2 := congrArg String.data h
  simp [errorLine] at h2

theorem newIdsLine_ne (buf : StatResult) : newIdsLine buf ≠ errorLine := by
  intro h
  have h2 := congrArg String.data h
  simp [errorLine, newIdsLine] at h2

theorem usage_ne (x : String) : x ++ " /some/socketfile uid gid\n" ≠ errorLine := by
  intro h
  have h2 := congrArg (fun s => s.data.reverse) h
  simp [errorLine] at h2


/-- In every run whose lookups succeed, the error line is printed as many
times as there are successful read-backs with ids that differ. -/
theorem main_errorLines (argv : List String) (w : Env) (pwd : Passwd) (grp : Group)
    (hu : w.getpwnam (argv.getD 2 "") = some pwd)
    (hg : w.getgrnam (argv.getD 3 "") = some grp) :
    ((main argv w).trace.filter Event.isErrorLine).length =
      ((main argv w).trace.filter (Event.isMismatch pwd.pw_uid grp.gr_gid)).length := by
  by_cases hargc : argv.length < 4
  · rw [main_of_few_args argv w hargc]
    simp [usage, usage_ne, Event.isMismatch, Event.isErrorLine]
  by_cases hfd : w.socket < 0
  · rw [main_of_socket_neg argv w (by omega) hfd]
    simp [Event.isMismatch, Event.isErrorLine]
  obtain ⟨r, acc, hm, hr⟩ := main_reaches argv w (by omega) (by omega)
  rw [hm, cleanup_trace]
  clear hm
  generalize argv.getD 1 "" = path at *
  generalize argv.getD 2 "" = u at *
  generalize argv.getD 3 "" = g at *
  have hp : parse_uid_gid_strings w u g 0 0 = ⟨0, pwd.pw_uid, grp.gr_gid,
      [Event.getpwnam u (some pwd), Event.getgrnam g (some grp)]⟩ := by
    simp [parse_uid_gid_strings, hu, hg]
  have e1 : "fchown() SUCCESS\n" ≠ errorLine := by decide
  have e2 : "chown() SUCCESS\n" ≠ errorLine := by decide
  have e3 : "All done\n" ≠ errorLine := by decide
  have e4 := newIdsLine_ne
  simp only [newIdsLine] at e4
  by_cases hrm : w.remove path < 0 <;>
    by_cases h1 : pwd.pw_uid ≠ (w.stat1 path).st_uid ∨ grp.gr_gid ≠ (w.stat1 path).st_gid <;>
    by_cases h2 : pwd.pw_uid ≠ (w.stat2 path).st_uid ∨ grp.gr_gid ≠ (w.stat2 path).st_gid <;>
    cases hr <;>
    simp only [prefixChown, prefixOk, readback, hp, List.cons_append, List.nil_append,
      List.append_assoc, hrm, h1, h2, if_true, if_false] <;>
    (simp only [hp, not_lt] at *
     simp only [Event.isMismatch, Event.isErrorLine, List.filter_cons, List.filter_nil, e4, calling_chown_ne,
       calling_fchown_ne, removing_ne, e1, e2, e3, h1, h2, decide_False, decide_True, if_true, if_false, Bool.false_eq_true, List.length_cons, List.length_nil]
     try simp_all [not_le.mpr, removing_ne])

/-! ## The run in which every step succeeds -/

theorem callSeq_append (a b : List Event) : callSeq (a ++ b) = callSeq a ++ callSeq b := by
  simp [callSeq]

theorem callSeq_readback (uid gid : Nat) (buf : StatResult) :
    callSeq (readback uid gid buf) = [] := by
  unfold readback
  split_ifs <;> rfl

/-- The run in which every step succeeds: its calls and its value. -/
theorem main_of_success (argv : List String) (w : Env) (pwd : Passwd) (grp : Group)
    (hargc : 4 ≤ argv.length) (hfd : 0 ≤ w.socket)
    (hu : w.getpwnam (argv.getD 2 "") = some pwd) (hg : w.getgrnam (argv.getD 3 "") = some grp)
    (hf : 0 ≤ w.fchown w.socket pwd.pw_uid grp.gr_gid)
    (hs1 : 0 ≤ (w.stat1 (argv.getD 1 "")).ret)
    (hc : 0 ≤ w.chown (argv.getD 1 "") pwd.pw_uid grp.gr_gid)
    (hs2 : 0 ≤ (w.stat2 (argv.getD 1 "")).ret)
    (hrm : 0 ≤ w.remove (argv.getD 1 "")) :
    (main argv w).ret = (w.stat2 (argv.getD 1 "")).ret ∧
      callSeq (main argv w).trace =
        [Call.socket, Call.bind w.socket (argv.getD 1 ""), Call.getpwnam (argv.getD 2 ""),
          Call.getgrnam (argv.getD 3 ""), Call.fchown w.socket pwd.pw_uid grp.gr_gid,
          Call.stat (argv.getD 1 ""), Call.chown (argv.getD 1 "") pwd.pw_uid grp.gr_gid,
          Call.stat (argv.getD 1 ""), Call.remove (argv.getD 1 "")] := by
  obtain ⟨r, acc, hm, hr⟩ := main_reaches argv w hargc hfd
  rw [hm, cleanup_trace, cleanup_ret]
  clear hm
  generalize argv.getD 1 "" = path at *
  generalize argv.getD 2 "" = u at *
  generalize argv.getD 3 "" = g at *
  have hp : parse_uid_gid_strings w u g 0 0 = ⟨0, pwd.pw_uid, grp.gr_gid,
      [Event.getpwnam u (some pwd), Event.getgrnam g (some grp)]⟩ := by
    simp [parse_uid_gid_strings, hu, hg]
  have hrm' : ¬ w.remove path < 0 := by omega
  cases hr with
  | resolve h => rw [hp] at h; simp at h
  | fchown _ h => rw [hp] at h; simp only at h; omega
  | stat1 _ _ h => omega
  | chown _ _ _ h => rw [hp] at h; simp only at h; omega
  | stat2 _ _ _ _ h => omega
  | done _ _ _ _ _ =>
    refine ⟨by rw [if_neg hrm'], ?_⟩
    simp only [callSeq_append, callSeq_readback, prefixChown, prefixOk, hp, if_neg hrm']
    rfl


/-! ## The claims -/

/-- C3 (as stated, refuted): with 3 positional arguments and a failing
`socket()`, `remove` is not called at all, so it is not called exactly once. -/
theorem remove_not_called_when_socket_fails :
    4 ≤ argvOk.length ∧ envNoSocket.socket < 0 ∧
      ((main argvOk envNoSocket).trace.filter Event.isRemove).length ≠ 1 := by
  decide

/-- C3 (amended): with at least 3 positional arguments, when `socket()`
returns a valid descriptor the calls of `remove` in the run are exactly one,
`remove(path)`, whichever later step fails or if none fails; when `socket()`
fails, `remove` is not called. -/
theorem remove_called_once_after_socket (argv : List String) (w : Env)
    (hargc : 4 ≤ argv.length) :
    (main argv w).trace.filter Event.isRemove =
      if 0 ≤ w.socket then [Event.remove (argv.getD 1 "") (w.remove (argv.getD 1 ""))]
      else [] := by
  by_cases hfd : 0 ≤ w.socket
  · obtain ⟨r, acc, hm, hr⟩ := main_reaches argv w hargc hfd
    rw [hm, cleanup_trace, List.filter_append, hr.no_remove, if_pos hfd]
    generalize argv.getD 1 "" = path
    by_cases hs : w.remove path < 0 <;> simp [hs, Event.isRemove]
  · rw [main_of_socket_neg argv w hargc (by omega), if_neg hfd]
    rfl

/-- Witness of C3 (amended) on the run in which every call succeeds. -/
theorem remove_called_once_after_socket_witness :
    (main argvOk envOk).trace.filter Event.isRemove =
      if 0 ≤ envOk.socket then [Event.remove (argvOk.getD 1 "") (envOk.remove (argvOk.getD 1 ""))]
      else [] :=
  remove_called_once_after_socket argvOk envOk (by decide)

/-- C5 (as stated, refuted): with no positional argument the usage message is
one line, not two. -/
theorem usage_message_is_one_line :
    (["sock-fchown"] : List String).length < 4 ∧
      lineCount (stdout (main ["sock-fchown"] envOk).trace) = 1 ∧
      lineCount (stdout (main ["sock-fchown"] envOk).trace) ≠ 2 := by
  decide

/-- C5 (amended): with fewer than 3 positional arguments the run of `main` is
a single `printf` of the usage line `<argv[0]> /some/socketfile uid gid`, one
line more than the program name holds; `main` returns 1 and calls none of
`socket`, `bind`, `fchown`, `chown`, `stat`, `remove` (there is no library
call at all). -/
theorem too_few_arguments_usage (argv : List String) (w : Env) (hargc : argv.length < 4) :
    main argv w =
        ⟨[Event.printf (argv.getD 0 "(null)" ++ " /some/socketfile uid gid\n")], 1⟩ ∧
      lineCount (stdout (main argv w).trace) = lineCount (argv.getD 0 "(null)") + 1 ∧
      calls (main argv w).trace = [] := by
  rw [main_of_few_args argv w hargc]
  refine ⟨rfl, ?_, rfl⟩
  simp only [usage, stdout, lineCount_append]
  rfl

/-- Witness of C5 (amended) on a command line with two positional arguments. -/
theorem too_few_arguments_usage_witness :
    main ["sock-fchown", "/tmp/test.sock", "nobody"] envOk =
        ⟨[Event.printf ((["sock-fchown", "/tmp/test.sock", "nobody"] : List String).getD 0 "(null)"
          ++ " /some/socketfile uid gid\n")], 1⟩ ∧
      lineCount (stdout (main ["sock-fchown", "/tmp/test.sock", "nobody"] envOk).trace) =
        lineCount ((["sock-fchown", "/tmp/test.sock", "nobody"] : List String).getD 0 "(null)") + 1 ∧
      calls (main ["sock-fchown", "/tmp/test.sock", "nobody"] envOk).trace = [] :=
  too_few_arguments_usage ["sock-fchown", "/tmp/test.sock", "nobody"] envOk (by decide)

/-- C9: with at least 3 positional arguments and a negative descriptor `fd`
from `socket()`, the run is exactly `socket`, then `bind` on that descriptor,
then the error report, and `main` returns `fd`: no lookup, `fchown`, `chown`,
`stat` or `remove` is called. -/
theorem socket_failure_binds_then_returns (argv : List String) (w : Env)
    (hargc : 4 ≤ argv.length) (hfd : w.socket < 0) :
    main argv w =
        ⟨[Event.socket w.socket,
          Event.bind w.socket (argv.getD 1 "") (w.bind w.socket (argv.getD 1 "")),
          Event.perror ("Failed to create socket " ++ argv.getD 1 "")], w.socket⟩ ∧
      calls (main argv w).trace =
        [Event.socket w.socket,
          Event.bind w.socket (argv.getD 1 "") (w.bind w.socket (argv.getD 1 ""))] ∧
      (main argv w).ret = w.socket := by
  rw [main_of_socket_neg argv w hargc hfd]
  exact ⟨rfl, rfl, rfl⟩

/-- Witness of C9 on a system whose `socket()` returns -1. -/
theorem socket_failure_binds_then_returns_witness :
    main argvOk envNoSocket =
        ⟨[Event.socket envNoSocket.socket,
          Event.bind envNoSocket.socket (argvOk.getD 1 "")
            (envNoSocket.bind envNoSocket.socket (argvOk.getD 1 "")),
          Event.perror ("Failed to create socket " ++ argvOk.getD 1 "")], envNoSocket.socket⟩ ∧
      calls (main argvOk envNoSocket).trace =
        [Event.socket envNoSocket.socket,
          Event.bind envNoSocket.socket (argvOk.getD 1 "")
            (envNoSocket.bind envNoSocket.socket (argvOk.getD 1 ""))] ∧
      (main argvOk envNoSocket).ret = envNoSocket.socket :=
  socket_failure_binds_then_returns argvOk envNoSocket (by decide) (by decide)

/-- C7: `parse_uid_gid_strings` returns 0 exactly when the user lookup and the
group lookup both find an entry, and then the ids it writes are the `pw_uid`
of the user entry and the `gr_gid` of the group entry; when either lookup
fails it returns -1. -/
theorem parse_uid_gid_strings_correct (w : Env) (uid_str gid_str : String) (uid0 gid0 : Nat) :
    ((parse_uid_gid_strings w uid_str gid_str uid0 gid0).ret = 0 ↔
        ∃ pwd grp, w.getpwnam uid_str = some pwd ∧ w.getgrnam gid_str = some grp) ∧
      (∀ pwd grp, w.getpwnam uid_str = some pwd → w.getgrnam gid_str = some grp →
        (parse_uid_gid_strings w uid_str gid_str uid0 gid0).uid = pwd.pw_uid ∧
        (parse_uid_gid_strings w uid_str gid_str uid0 gid0).gid = grp.gr_gid) ∧
      (w.getpwnam uid_str = none ∨ w.getgrnam gid_str = none →
        (parse_uid_gid_strings w uid_str gid_str uid0 gid0).ret = -1) := by
  rcases parse_cases w uid_str gid_str uid0 gid0 with
    ⟨hu, hp⟩ | ⟨pwd, hu, hg, hp⟩ | ⟨pwd, grp, hu, hg, hp⟩
  · simp [hp, hu]
  · simp [hp, hu, hg]
  · simp [hp, hu, hg]

/-- C4 (as stated, refuted): the user name `doesnotexist123` is not found,
yet `socket` and `bind` have been called: the lookups come after them. -/
theorem socket_ops_precede_failed_lookup :
    envOk.getpwnam (argvNoUser.getD 2 "") = none ∧
      (main argvNoUser envOk).trace.filter Event.isSocketOp =
        [Event.socket 3, Event.bind 3 "/tmp/test.sock" 0] ∧
      ¬ (main argvNoUser envOk).trace.filter Event.isSocketOp = [] := by
  decide

/-- C4 (amended): when the user name or the group name is not found by the
identity lookup, identity resolution fails (`parse_uid_gid_strings` returns
-1) and no ownership operation (`fchown`, `chown`) is called during the run. -/
theorem lookup_failure_no_ownership_op (argv : List String) (w : Env)
    (h : w.getpwnam (argv.getD 2 "") = none ∨ w.getgrnam (argv.getD 3 "") = none) :
    (parse_uid_gid_strings w (argv.getD 2 "") (argv.getD 3 "") 0 0).ret = -1 ∧
      (main argv w).trace.filter Event.isOwnershipOp = [] := by
  have hret := parse_ret_of_lookup_failure w (argv.getD 2 "") (argv.getD 3 "") 0 0 h
  refine ⟨hret, ?_⟩
  by_cases hargc : argv.length < 4
  · rw [main_of_few_args argv w hargc]
    rfl
  by_cases hfd : w.socket < 0
  · rw [main_of_socket_neg argv w (by omega) hfd]
    rfl
  obtain ⟨r, acc, hm, hr⟩ := main_reaches argv w (by omega) (by omega)
  obtain ⟨_, hacc⟩ := hr.of_resolve_failure (by rw [hret]; decide)
  rw [hm, cleanup_trace, hacc]
  generalize argv.getD 1 "" = path
  generalize argv.getD 2 "" = u
  generalize argv.getD 3 "" = g
  rcases parse_cases w u g 0 0 with ⟨_, hp⟩ | ⟨pwd, _, _, hp⟩ | ⟨pwd, grp, _, _, hp⟩ <;>
    rw [hp] <;> by_cases hs : w.remove path < 0 <;>
    simp [hs, Event.isOwnershipOp]

/-- Witness of C4 (amended) on the command line with the unknown user
`doesnotexist123`. -/
theorem lookup_failure_no_ownership_op_witness :
    (parse_uid_gid_strings envOk (argvNoUser.getD 2 "") (argvNoUser.getD 3 "") 0 0).ret = -1 ∧
      (main argvNoUser envOk).trace.filter Event.isOwnershipOp = [] :=
  lookup_failure_no_ownership_op argvNoUser envOk (Or.inl (by decide))

/-- C6 (the code at the failing input): `socket()` gives descriptor 3 and
`bind` returns -1 because the path exists.  The result of `bind` is not
examined: the next call is `getpwnam`, the whole probe sequence runs on the
file that was already there, nothing reports the `bind` failure, the file is
removed and `main` returns 0. -/
theorem bind_failure_is_ignored :
    envBindFails.bind 3 "/tmp/test.sock" = -1 ∧
      main argvOk envBindFails =
        ⟨[Event.socket 3,
          Event.bind 3 "/tmp/test.sock" (-1),
          Event.getpwnam "nobody" (some ⟨65534⟩),
          Event.getgrnam "nogroup" (some ⟨65534⟩),
          Event.printf "Calling fchown(3, 65534, 65534)\n",
          Event.fchown 3 65534 65534 0,
          Event.printf "fchown() SUCCESS\n",
          Event.stat "/tmp/test.sock" ⟨0, 0, 0⟩,
          Event.printf "New uid:gid (0:0)\n",
          Event.printf "ERROR: Failed to properly set uid or gid.\n",
          Event.printf "Calling chown(3, 65534, 65534)\n",
          Event.chown "/tmp/test.sock" 65534 65534 0,
          Event.printf "chown() SUCCESS\n",
          Event.stat "/tmp/test.sock" ⟨0, 65534, 65534⟩,
          Event.printf "New uid:gid (65534:65534)\n",
          Event.printf "Removing /tmp/test.sock.\n",
          Event.remove "/tmp/test.sock" 0,
          Event.printf "All done\n"], 0⟩ := by
  decide

/-- C2: in every run of `main` (with or without a descriptor), when one of
the steps `fchown`, first `stat`, `chown`, second `stat` returns a negative
result, the calls that come after it are `remove(path)` and nothing else: no
later step of the sequence is called and the next call is `remove(path)`. -/
theorem failed_step_goes_to_remove (argv : List String) (w : Env)
    (pre : List Event) (e : Event) (post : List Event)
    (hsplit : calls (main argv w).trace = pre ++ e :: post)
    (hfail : e.failedProbe = true) :
    post = [Event.remove (argv.getD 1 "") (w.remove (argv.getD 1 ""))] :=
  (main_stopsAt argv w).split pre e post hsplit hfail

/-- Witness of C2 on the run whose second `stat` fails: the calls are the
seven calls up to `chown`, the failed `stat`, and `remove`. -/
theorem failed_step_goes_to_remove_witness :
    calls (main argvOk envStatRemoveFail).trace =
        [Event.socket 3, Event.bind 3 "/tmp/test.sock" 0,
          Event.getpwnam "nobody" (some ⟨65534⟩), Event.getgrnam "nogroup" (some ⟨65534⟩),
          Event.fchown 3 65534 65534 0, Event.stat "/tmp/test.sock" ⟨0, 0, 0⟩,
          Event.chown "/tmp/test.sock" 65534 65534 0] ++
        Event.stat "/tmp/test.sock" ⟨-1, 0, 0⟩ :: [Event.remove "/tmp/test.sock" (-2)] ∧
      (Event.stat "/tmp/test.sock" ⟨-1, 0, 0⟩).failedProbe = true ∧
      [Event.remove "/tmp/test.sock" (-2)] =
        [Event.remove (argvOk.getD 1 "") (envStatRemoveFail.remove (argvOk.getD 1 ""))] :=
  ⟨by decide, by decide,
    failed_step_goes_to_remove argvOk envStatRemoveFail
      [Event.socket 3, Event.bind 3 "/tmp/test.sock" 0,
        Event.getpwnam "nobody" (some ⟨65534⟩), Event.getgrnam "nogroup" (some ⟨65534⟩),
        Event.fchown 3 65534 65534 0, Event.stat "/tmp/test.sock" ⟨0, 0, 0⟩,
        Event.chown "/tmp/test.sock" 65534 65534 0]
      (Event.stat "/tmp/test.sock" ⟨-1, 0, 0⟩) [Event.remove "/tmp/test.sock" (-2)]
      (by decide) (by decide)⟩

/-- C8: in every run of `main` whose lookups give the requested ids
`pw_uid:gr_gid`, each `stat` that succeeds (the one after `fchown` as well as
the one after `chown`) is followed by the line with the ids it observed, and
the next event is the line "ERROR: Failed to properly set uid or gid." if and
only if the observed `st_uid` differs from the requested uid or the observed
`st_gid` from the requested gid; the error line is printed nowhere else: it
occurs as many times as there are successful read-backs that differ. -/
theorem error_line_iff_mismatch (argv : List String) (w : Env) (pwd : Passwd) (grp : Group)
    (hu : w.getpwnam (argv.getD 2 "") = some pwd)
    (hg : w.getgrnam (argv.getD 3 "") = some grp) :
    (∀ (i : Nat) (path : String) (buf : StatResult),
        (main argv w).trace[i]? = some (Event.stat path buf) → 0 ≤ buf.ret →
        (main argv w).trace[i + 1]? = some (Event.printf (newIdsLine buf)) ∧
        ((main argv w).trace[i + 2]? = some (Event.printf errorLine) ↔
          (pwd.pw_uid ≠ buf.st_uid ∨ grp.gr_gid ≠ buf.st_gid))) ∧
      ((main argv w).trace.filter Event.isErrorLine).length =
        ((main argv w).trace.filter (Event.isMismatch pwd.pw_uid grp.gr_gid)).length :=
  ⟨fun i path buf hi hok => (main_readbacksOk argv w pwd grp hu hg).at_index i path buf hi hok,
    main_errorLines argv w pwd grp hu hg⟩

/-- Witness of C8 on the run in which every call succeeds: the read-back after
`fchown` (event 7) observes 0:0 and is followed by the error line (event 9);
the read-back after `chown` (event 13) observes 65534:65534 and is not. -/
theorem error_line_iff_mismatch_witness :
    (main argvOk envOk).trace[7]? = some (Event.stat "/tmp/test.sock" ⟨0, 0, 0⟩) ∧
      (main argvOk envOk).trace[13]? = some (Event.stat "/tmp/test.sock" ⟨0, 65534, 65534⟩) ∧
      ((main argvOk envOk).trace[9]? = some (Event.printf errorLine) ↔
        ((65534 : Nat) ≠ 0 ∨ (65534 : Nat) ≠ 0)) ∧
      ((main argvOk envOk).trace[15]? = some (Event.printf errorLine) ↔
        ((65534 : Nat) ≠ 65534 ∨ (65534 : Nat) ≠ 65534)) ∧
      ((main argvOk envOk).trace.filter Event.isErrorLine).length = 1 :=
  ⟨by decide, by decide,
    ((error_line_iff_mismatch argvOk envOk ⟨65534⟩ ⟨65534⟩ (by decide) (by decide)).1
      7 "/tmp/test.sock" ⟨0, 0, 0⟩ (by decide) (by decide)).2,
    ((error_line_iff_mismatch argvOk envOk ⟨65534⟩ ⟨65534⟩ (by decide) (by decide)).1
      13 "/tmp/test.sock" ⟨0, 65534, 65534⟩ (by decide) (by decide)).2,
    by decide⟩

/-- C10: when `socket`, identity resolution, `fchown`, both `stat` calls (a
successful `stat` returns 0), `chown` and `remove` all succeed, `main` returns
0, and so does it in any environment `v` that differs only in the ownership
values the two `stat` calls report, with the same sequence of calls: `socket`,
`bind`, `getpwnam`, `getgrnam`, `fchown`, `stat`, `chown`, `stat`, `remove`.
A mismatch changes neither the control flow nor the value returned. -/
theorem mismatch_changes_only_output (argv : List String) (w v : Env) (pwd : Passwd)
    (grp : Group) (hargc : 4 ≤ argv.length) (hfd : 0 ≤ w.socket)
    (hu : w.getpwnam (argv.getD 2 "") = some pwd)
    (hg : w.getgrnam (argv.getD 3 "") = some grp)
    (hf : 0 ≤ w.fchown w.socket pwd.pw_uid grp.gr_gid)
    (hs1 : 0 ≤ (w.stat1 (argv.getD 1 "")).ret)
    (hc : 0 ≤ w.chown (argv.getD 1 "") pwd.pw_uid grp.gr_gid)
    (hs2 : (w.stat2 (argv.getD 1 "")).ret = 0)
    (hrm : 0 ≤ w.remove (argv.getD 1 ""))
    (hsame : w.sameButOwners v) :
    (main argv w).ret = 0 ∧ (main argv v).ret = 0 ∧
      callSeq (main argv v).trace = callSeq (main argv w).trace ∧
      callSeq (main argv w).trace =
        [Call.socket, Call.bind w.socket (argv.getD 1 ""), Call.getpwnam (argv.getD 2 ""),
          Call.getgrnam (argv.getD 3 ""), Call.fchown w.socket pwd.pw_uid grp.gr_gid,
          Call.stat (argv.getD 1 ""), Call.chown (argv.getD 1 "") pwd.pw_uid grp.gr_gid,
          Call.stat (argv.getD 1 ""), Call.remove (argv.getD 1 "")] := by
  obtain ⟨e1, e2, e3, e4, e5, e6, e7, e8, e9⟩ := hsame
  have hw := main_of_success argv w pwd grp hargc hfd hu hg hf hs1 hc (by omega) hrm
  have hv := main_of_success argv v pwd grp hargc (by rw [e1]; exact hfd)
    (by rw [e3]; exact hu) (by rw [e4]; exact hg) (by rw [e1, e5]; exact hf)
    (by rw [e6]; exact hs1) (by rw [e7]; exact hc) (by rw [e8]; omega) (by rw [e9]; exact hrm)
  refine ⟨by rw [hw.1, hs2], by rw [hv.1, e8, hs2], ?_, hw.2⟩
  rw [hv.2, hw.2, e1]

/-- Witness of C10: the run in which every call succeeds, and the same system
reporting 65534:65534 after `fchown` and 0:0 after `chown`.  Both return 0
with the same calls; what they print differs. -/
theorem mismatch_changes_only_output_witness :
    ((main argvOk envOk).ret = 0 ∧ (main argvOk (envOk.withOwners 65534 65534 0 0)).ret = 0 ∧
      callSeq (main argvOk (envOk.withOwners 65534 65534 0 0)).trace =
        callSeq (main argvOk envOk).trace ∧
      callSeq (main argvOk envOk).trace =
        [Call.socket, Call.bind envOk.socket (argvOk.getD 1 ""), Call.getpwnam (argvOk.getD 2 ""),
          Call.getgrnam (argvOk.getD 3 ""), Call.fchown envOk.socket 65534 65534,
          Call.stat (argvOk.getD 1 ""), Call.chown (argvOk.getD 1 "") 65534 65534,
          Call.stat (argvOk.getD 1 ""), Call.remove (argvOk.getD 1 "")]) ∧
      stdout (main argvOk (envOk.withOwners 65534 65534 0 0)).trace ≠
        stdout (main argvOk envOk).trace :=
  ⟨mismatch_changes_only_output argvOk envOk (envOk.withOwners 65534 65534 0 0) ⟨65534⟩ ⟨65534⟩
      (by decide) (by decide) (by decide) (by decide) (by decide) (by decide) (by decide)
      (by decide) (by decide)
      ⟨rfl, rfl, rfl, rfl, rfl, fun _ => rfl, rfl, fun _ => rfl, rfl⟩,
    by decide⟩

end SockFchown
